import Mathlib

/-!
Verification of the video-clipper application core (src/video_clipper.py).

The development shallowly embeds the two components the specification
describes: the Command Runner (`Worker.run`, modelled by `workerRun` /
`workerClassify`) and the Session Controller (the `YtdlpGui` handlers
`on_fetch_finished`, `_on_video_quality_changed`, `download_clip`,
`on_fetch_error`, `on_download_error`, `on_download_finished`).

Python's `json.loads` is treated as an abstract parameter
`parse : String -> Option J` (it is standard-library code, not part of the
repository); locating an executable on the search path is likewise
abstracted as `locate : String -> Bool`.
-/

namespace VideoClipper

/-- The character U+007B, the JSON object start character scanned for by
`Worker.run` via `full_output.find`. -/
def braceChar : Char := Char.ofNat 123

/-- Terminal outcome of one external command execution, as in the spec's
`CommandExecution.outcome` (the `Running` state is not terminal and not
modelled). `succeededWithData` carries the parsed JSON value, of abstract
type `J`. -/
inductive Outcome (J : Type) where
  | succeededWithData : J → Outcome J
  | succeededEmpty : Outcome J
  | failed : String → Outcome J
deriving DecidableEq

/-- Line 78, `is_json_dump = '-j' in self.command or '--dump-json' in self.command`
(src/video_clipper.py line 78): membership test on the argument list. -/
def isJsonDump (cmd : List String) : Bool :=
  cmd.contains "-j" || cmd.contains "--dump-json"

/-- Model of `full_output.find(chr(123))`: index of the first occurrence of the JSON
object start character, `none` when absent (Python returns -1). -/
def findBrace (s : String) : Option Nat :=
  s.data.findIdx? (fun c => c = braceChar)

/-- Model of `full_output[i:]`: the substring of `s` from character index `i` on. -/
def strFrom (s : String) (i : Nat) : String :=
  String.mk (s.data.drop i)

/-- Classification of a finished process (src/video_clipper.py lines 77-94):
given the abstract JSON parser, the command, the full accumulated output and
the numeric return code, produce the terminal outcome. -/
def workerClassify {J : Type} (parse : String → Option J)
    (cmd : List String) (out : String) (rc : Int) : Outcome J :=
  if isJsonDump cmd then
    match findBrace out with
    | some i =>
      match parse (strFrom out i) with
      | some j => Outcome.succeededWithData j
      | none => Outcome.failed "Failed to parse video information from yt-dlp's output."
    | none => Outcome.failed "Could not find video information in the output."
  else if rc = 0 then Outcome.succeededEmpty
  else Outcome.failed ("Process finished with error code " ++ toString rc)

/-- The message emitted on `FileNotFoundError`
(src/video_clipper.py lines 95-96). -/
def notFoundMsg (exe : String) : String :=
  "Error: Command '" ++ exe ++ "' not found. Is it in your PATH?"

/-- Model of `Worker.run` (src/video_clipper.py lines 66-96): if the executable named
by the command's first element cannot be located, `subprocess.Popen` raises
`FileNotFoundError` and the outcome is the not-found failure; otherwise the
finished process is classified by `workerClassify`. -/
def workerRun {J : Type} (parse : String → Option J) (locate : String → Bool)
    (cmd : List String) (out : String) (rc : Int) : Outcome J :=
  if locate (cmd.headD "") then workerClassify parse cmd out rc
  else Outcome.failed (notFoundMsg (cmd.headD ""))

/-! ### Format entries and the fetch-result population logic -/

/-- One entry of the fetched metadata's `formats` sequence (the fields the
program reads via `f.get(...)`; optional fields model JSON keys that may be
absent or null). `format_id` is required by the external tool's schema (the
spec's `FormatEntry.formatId : string`). -/
structure FormatEntry where
  format_id : String
  ext : String
  vcodec : Option String
  acodec : Option String
  height : Option Nat
deriving DecidableEq

/-- Python truthiness of the `height` value bound at line 163: `None` and
`0` are falsy. -/
def heightTruthy (f : FormatEntry) : Bool :=
  match f.height with
  | some h => decide (h ≠ 0)
  | none => false

/-- The sort key of line 158, `x.get('height', 0) or 0`: missing or null
height counts as 0. -/
def heightKey (f : FormatEntry) : Nat :=
  f.height.getD 0

/-- Admission test for the video quality list (line 166):
`f.get('vcodec') != 'none' and height`. An absent `vcodec` (Python `None`)
also differs from `'none'` and therefore passes. -/
def videoAdmit (f : FormatEntry) : Bool :=
  decide (f.vcodec ≠ some "none") && heightTruthy f

/-- Admission test for the audio quality list (line 175):
`f.get('acodec') != 'none' and f.get('vcodec') == 'none'`. -/
def audioAdmit (f : FormatEntry) : Bool :=
  decide (f.acodec ≠ some "none") && decide (f.vcodec = some "none")

/-- Sort order of line 158: `sorted(..., key=..., reverse=True)` is a stable
descending sort on `heightKey`; `a` sorts no later than `b` iff
`heightKey b ≤ heightKey a`. -/
def sortRel (a b : FormatEntry) : Prop :=
  heightKey b ≤ heightKey a

instance : DecidableRel sortRel := fun a b =>
  inferInstanceAs (Decidable (heightKey b ≤ heightKey a))

instance : IsTotal FormatEntry sortRel :=
  ⟨fun a b => Nat.le_total (heightKey b) (heightKey a)⟩

instance : IsTrans FormatEntry sortRel :=
  ⟨fun _ _ _ h h2 => Nat.le_trans h2 h⟩

/-- Model of `sorted(self.video_info.get('formats', []), key=..., reverse=True)`
(line 158). Python's `sorted` is stable, so it is modelled by the stable
insertion sort with respect to `sortRel`. -/
def sortFormats (fs : List FormatEntry) : List FormatEntry :=
  List.insertionSort sortRel fs

/-- The loop of lines 160-177 as far as it selects entries: one left-to-right
pass appending each entry passing `videoAdmit` to the video list and each
entry passing `audioAdmit` to the audio list. -/
def populateEntries (fs : List FormatEntry) : List FormatEntry × List FormatEntry :=
  fs.foldl
    (fun acc f =>
      (if videoAdmit f then acc.1 ++ [f] else acc.1,
       if audioAdmit f then acc.2 ++ [f] else acc.2))
    ([], [])

/-- The item data stored with each video quality entry (line 172):
`addItem(label, dict(id = format_id, merged = is_merged))` where
`is_merged = f.get('acodec') != 'none'` (line 167). -/
structure VideoData where
  id : String
  merged : Bool
deriving DecidableEq

/-- The data dict built at lines 167 and 172 for an admitted video entry. -/
def mkVideoData (f : FormatEntry) : VideoData :=
  ⟨f.format_id, decide (f.acodec ≠ some "none")⟩

/-! ### Controller state -/

/-- The fetched video information (`self.video_info`): the fields the
program reads. `title` and `duration` are read with `.get` and may be
absent; `webpage_url` is read at line 219 (a fetch result always carries
it, so it is modelled as required). -/
structure VideoInfo where
  title : Option String
  duration : Option Nat
  webpage_url : String
  formats : List FormatEntry
deriving DecidableEq

/-- The observable state of `YtdlpGui` relevant to the verified handlers:
stored metadata, the two combo boxes (item data and current index, index -1
when nothing is selected), the clip range in seconds, output location and
filename text, the log, and the enabled flags set by `update_ui_state` and
`_on_video_quality_changed`. -/
structure St where
  video_info : Option VideoInfo
  videoItems : List VideoData
  audioItems : List String
  videoIndex : Int
  audioIndex : Int
  startSec : Nat
  endSec : Nat
  outputPath : String
  filenameText : String
  log : List String
  fetchEnabled : Bool
  urlEnabled : Bool
  downloadEnabled : Bool
  videoComboEnabled : Bool
  audioComboEnabled : Bool
deriving DecidableEq

/-- Model of `QComboBox.itemData(i)` for the video combo: the stored data when `i` is
a valid row, an invalid (falsy) variant otherwise. -/
def itemDataV (items : List VideoData) (i : Int) : Option VideoData :=
  if i < 0 then none else items.get? i.toNat

/-- Model of `QComboBox.itemData(i)` for the audio combo (data is a format id). -/
def itemDataA (items : List String) (i : Int) : Option String :=
  if i < 0 then none else items.get? i.toNat

/-- Model of `self.video_quality_combo.currentData()` (line 186). -/
def currentVideoData (st : St) : Option VideoData :=
  itemDataV st.videoItems st.videoIndex

/-- Model of `self.audio_quality_combo.currentData()` (line 200). -/
def currentAudioData (st : St) : Option String :=
  itemDataA st.audioItems st.audioIndex

/-- Model of `update_ui_state` (lines 305-315) restricted to the modelled flags; the
four keyword arguments default to false at every call site that omits them. -/
def update_ui_state (st : St) (initial fetching info_loaded downloading : Bool) : St :=
  let st1 :=
    if initial then
      { st with downloadEnabled := false, videoComboEnabled := false,
                audioComboEnabled := false }
    else st
  let can := info_loaded && !downloading && !fetching
  { st1 with fetchEnabled := !(fetching || downloading),
             urlEnabled := !(fetching || downloading),
             downloadEnabled := can, videoComboEnabled := can,
             audioComboEnabled := can }

/-- Model of `_on_video_quality_changed` (lines 127-134): for a non-negative index
with stored (truthy) item data, enable the audio combo iff the selected
video entry is not merged; otherwise do nothing. -/
def on_video_quality_changed (st : St) (index : Int) : St :=
  if index < 0 then st
  else
    match itemDataV st.videoItems index with
    | some d => { st with audioComboEnabled := !d.merged }
    | none => st

/-- Model of `on_fetch_error` (lines 332-335): append the error line to the log and
call `update_ui_state(info_loaded=False)` (the dialog box is external). -/
def on_fetch_error (st : St) (msg : String) : St :=
  update_ui_state
    { st with log := st.log ++ ["\nERROR: " ++ msg] }
    false false false false

/-- Model of `on_download_error` (lines 347-350). -/
def on_download_error (st : St) (msg : String) : St :=
  update_ui_state
    { st with log := st.log ++ ["\nDOWNLOAD ERROR: " ++ msg] }
    false false true false

/-- Model of `on_download_finished` (lines 342-345). -/
def on_download_finished (st : St) : St :=
  update_ui_state
    { st with log := st.log ++ ["\nDownload completed successfully!"] }
    false false true false

/-- Model of `on_fetch_finished` (lines 136-181). An empty (falsy) result defers to
`on_fetch_error`. Otherwise the metadata is stored, the clip range reset to
`[0, duration]`, both combo boxes repopulated from the sorted format list
(Qt sets the current index of a repopulated combo to 0, or -1 when it is
empty), the UI state updated with `info_loaded=True`, and the video-quality
handler invoked for the current index. The handler also fires from Qt
signals during population, but each such firing only sets
`audioComboEnabled`, which `update_ui_state` and the final explicit call
overwrite, so the net state is as modelled. -/
def on_fetch_finished (st : St) (info : Option VideoInfo) : St :=
  match info with
  | none => on_fetch_error st "Received empty video information."
  | some vi =>
    let lists := populateEntries (sortFormats vi.formats)
    let vItems := lists.1.map mkVideoData
    let aItems := lists.2.map (fun f => f.format_id)
    let st1 :=
      { st with
        log := st.log ++ ["\nSuccessfully parsed video information!"],
        video_info := some vi,
        startSec := 0,
        endSec := vi.duration.getD 0,
        videoItems := vItems,
        audioItems := aItems,
        videoIndex := if vItems.isEmpty then -1 else 0,
        audioIndex := if aItems.isEmpty then -1 else 0 }
    let st2 := update_ui_state st1 false false true false
    on_video_quality_changed st2 st2.videoIndex

/-! ### The download command builder -/

/-- ASCII whitespace stripped by Python's `str.strip()`:
space, tab, newline, carriage return, vertical tab, form feed. -/
def isPySpace (c : Char) : Bool :=
  c = ' ' || c = '\t' || c = '\n' || c = '\r' ||
  c = Char.ofNat 11 || c = Char.ofNat 12

/-- Model of `s.strip()` (line 213): remove leading and trailing whitespace. -/
def pyStrip (s : String) : String :=
  String.mk (((s.data.dropWhile isPySpace).reverse.dropWhile isPySpace).reverse)

/-- The characters removed from the title by the regular expression at
line 215: backslash, slash, star, question mark, colon, double quote,
less-than, greater-than, pipe. -/
def forbiddenChars : List Char :=
  ['\\', '/', '*', '?', ':', '\"', '<', '>', '|']

/-- Model of `re.sub(..., "", title)` (line 215): delete every occurrence of a
forbidden character. -/
def sanitizeTitle (s : String) : String :=
  String.mk (s.data.filter (fun c => !forbiddenChars.contains c))

/-- Model of `b.startswith('/')`: the string begins with the path separator. -/
def startsWithSlash (s : String) : Bool :=
  match s.data with
  | c :: _ => c = '/'
  | [] => false

/-- Model of `a.endswith('/')`: the string ends with the path separator. -/
def endsWithSlash (s : String) : Bool :=
  match s.data.getLast? with
  | some c => c = '/'
  | none => false

/-- Model of `os.path.join(a, b)` on POSIX: an absolute second component replaces
the first; otherwise the separator is inserted unless the first component
is empty or already ends with one. -/
def joinPath (a b : String) : String :=
  if startsWithSlash b then b
  else if a = "" || endsWithSlash a then a ++ b
  else a ++ "/" ++ b

/-- Two-digit zero padding, as in `QTime.toString("HH:mm:ss")`. -/
def pad2 (n : Nat) : String :=
  if n < 10 then "0" ++ toString n else toString n

/-- Model of `QTime.toString("HH:mm:ss")` for a time of day stored as seconds. -/
def hhmmss (s : Nat) : String :=
  pad2 (s / 3600) ++ ":" ++ pad2 (s % 3600 / 60) ++ ":" ++ pad2 (s % 60)

/-- Model of `self.video_info.get('title', 'video')` (line 215). `download_clip` is
reachable only with loaded metadata; the `none` branch is a placeholder for
the state in which Python would have raised on a missing `video_info`. -/
def titleOf (st : St) : String :=
  match st.video_info with
  | some vi => vi.title.getD "video"
  | none => "video"

/-- Model of `self.video_info.get('webpage_url')` (line 219), same reachability
remark as `titleOf`. -/
def webpageUrlOf (st : St) : String :=
  match st.video_info with
  | some vi => vi.webpage_url
  | none => ""

/-- The basename chosen at lines 213-218: the stripped user filename when
non-empty, else the sanitized title. -/
def dlBasename (st : St) : String :=
  let fn := pyStrip st.filenameText
  if fn = "" then sanitizeTitle (titleOf st) else fn

/-- The `-o` argument (lines 212-218):
`os.path.join(output_path, basename + ".%(ext)s")`. -/
def outputTemplate (st : St) : String :=
  joinPath st.outputPath (dlBasename st ++ ".%(ext)s")

/-- The argument list built at line 219. -/
def buildCommand (st : St) (fmtSpec : String) : List String :=
  ["yt-dlp", "-f", fmtSpec,
   "--download-sections", "*" ++ hhmmss st.startSec ++ "-" ++ hhmmss st.endSec,
   "--force-keyframes-at-cuts", "--merge-output-format", "mkv",
   "-o", outputTemplate st, webpageUrlOf st]

/-- The quoting of line 222: wrap an argument containing a space in single
quotes (`" " in c` tests for an occurrence of the space character). -/
def renderArg (c : String) : String :=
  if c.data.contains ' ' then "'" ++ c ++ "'" else c

/-- The four log lines appended at lines 220-223. -/
def downloadLogLines (cmd : List String) : List String :=
  ["\n" ++ String.mk (List.replicate 50 '='),
   "Starting download with command:",
   String.intercalate " " (cmd.map renderArg),
   String.mk (List.replicate 50 '=') ++ "\n"]

/-- Result of a `download_clip` request: one of the three synchronous
rejections (each shown as a warning dialog, external to the state), or the
started worker's command. -/
inductive DlOutcome where
  | selErrVideo : DlOutcome
  | selErrAudio : DlOutcome
  | timeErr : DlOutcome
  | started : List String → DlOutcome
deriving DecidableEq

/-- The tail of `download_clip` (lines 207-229) once the format
specification has been determined: the time check `start >= end` (rejected
with the time error, state unchanged), else the command is built, echoed to
the log and the worker started (`update_ui_state(downloading=True)`
disables the controls). -/
def dlProceed (st : St) (fmtSpec : String) : DlOutcome × St :=
  if st.startSec ≥ st.endSec then (DlOutcome.timeErr, st)
  else
    let cmd := buildCommand st fmtSpec
    (DlOutcome.started cmd,
     update_ui_state { st with log := st.log ++ downloadLogLines cmd }
       false false false true)

/-- Model of `download_clip` (lines 184-229). Checks run in source order: video
selection (falsy `currentData` rejected), then — only for a non-merged
video format — audio selection (falsy data, i.e. no selection or an empty
id, rejected), then the shared tail `dlProceed`. Rejections leave the state
unchanged. -/
def download_clip (st : St) : DlOutcome × St :=
  match currentVideoData st with
  | none => (DlOutcome.selErrVideo, st)
  | some v =>
    if v.merged then dlProceed st v.id
    else
      match currentAudioData st with
      | none => (DlOutcome.selErrAudio, st)
      | some a =>
        if a = "" then (DlOutcome.selErrAudio, st)
        else dlProceed st (v.id ++ "+" ++ a)

/-! ### Spec-side predicates

The following two predicates transcribe the specification's words in §3
("Derived classification"), to be compared with the source-derived
admission tests `videoAdmit` and `audioAdmit`. -/

/-- Spec §3: a FormatEntry is video-capable iff videoCodec is present and
not the none-sentinel and height is present. -/
def specVideoCapable (f : FormatEntry) : Bool :=
  (match f.vcodec with
   | some v => decide (v ≠ "none")
   | none => false) && f.height.isSome

/-- Spec §3: a FormatEntry is audio-capable iff audioCodec is present and
not the none-sentinel. -/
def specAudioCapable (f : FormatEntry) : Bool :=
  match f.acodec with
  | some a => decide (a ≠ "none")
  | none => false

/-- Claim C2 as stated, for one formats sequence: the derived video list
consists exactly of the spec's video-capable entries (in descending-height
order) and the derived audio list of the spec's audio-capable-but-not-
video-capable entries. -/
def claimC2At (fs : List FormatEntry) : Prop :=
  (populateEntries (sortFormats fs)).1 = (sortFormats fs).filter specVideoCapable
  ∧ (populateEntries (sortFormats fs)).2 =
      (sortFormats fs).filter (fun f => specAudioCapable f && !specVideoCapable f)

instance (fs : List FormatEntry) : Decidable (claimC2At fs) :=
  inferInstanceAs (Decidable (_ ∧ _))

/-! ### Helper lemmas -/

theorem populateEntries_foldl (fs : List FormatEntry) (a b : List FormatEntry) :
    fs.foldl
      (fun acc f =>
        (if videoAdmit f then acc.1 ++ [f] else acc.1,
         if audioAdmit f then acc.2 ++ [f] else acc.2))
      (a, b)
    = (a ++ fs.filter videoAdmit, b ++ fs.filter audioAdmit) := by
  induction fs generalizing a b with
  | nil => simp
  | cons f fs ih =>
    simp only [List.foldl_cons, List.filter_cons]
    cases hv : videoAdmit f <;> cases ha : audioAdmit f <;>
      simp [ih, List.append_assoc]

/-- The population pass keeps exactly the entries passing the two admission
tests, in input order. -/
theorem populateEntries_eq (fs : List FormatEntry) :
    populateEntries fs = (fs.filter videoAdmit, fs.filter audioAdmit) := by
  simpa [populateEntries] using populateEntries_foldl fs [] []

theorem sortFormats_sorted (fs : List FormatEntry) :
    List.Sorted sortRel (sortFormats fs) :=
  List.sorted_insertionSort sortRel fs

theorem mem_sortFormats {f : FormatEntry} {fs : List FormatEntry} :
    f ∈ sortFormats fs ↔ f ∈ fs :=
  (List.perm_insertionSort sortRel fs).mem_iff

theorem download_clip_started_inv (st : St) (cmd : List String)
    (h : (download_clip st).1 = DlOutcome.started cmd) :
    ∃ fmtSpec, cmd = buildCommand st fmtSpec := by
  unfold download_clip at h
  split at h
  · exact absurd h (by simp)
  next v hv =>
    split at h
    · unfold dlProceed at h
      split at h
      · exact absurd h (by simp)
      · exact ⟨v.id, by simpa using h.symm⟩
    · split at h
      · exact absurd h (by simp)
      next a ha =>
        split at h
        · exact absurd h (by simp)
        · unfold dlProceed at h
          split at h
          · exact absurd h (by simp)
          · exact ⟨v.id ++ "+" ++ a, by simpa using h.symm⟩

/-! ### Claim theorems -/

/-- C1: the Command Runner's terminal outcome is classified exactly as
stated. When a JSON result is expected (the runner's `is_json_dump` test):
no brace in the accumulated output yields the could-not-find failure; a
brace whose suffix fails to parse yields the parse failure; a brace whose
suffix parses yields `succeededWithData` with the parsed value — all
regardless of the numeric exit status `rc`. When no JSON result is
expected: exit status 0 yields `succeededEmpty`, any nonzero status yields
the failure naming that status. -/
theorem C1_outcome_classification {J : Type} (parse : String → Option J)
    (cmd : List String) (out : String) (rc : Int) :
    (isJsonDump cmd = true →
      (findBrace out = none →
        workerClassify parse cmd out rc =
          Outcome.failed "Could not find video information in the output.")
      ∧ (∀ i, findBrace out = some i → parse (strFrom out i) = none →
          workerClassify parse cmd out rc =
            Outcome.failed "Failed to parse video information from yt-dlp's output.")
      ∧ (∀ i j, findBrace out = some i → parse (strFrom out i) = some j →
          workerClassify parse cmd out rc = Outcome.succeededWithData j))
    ∧ (isJsonDump cmd = false →
      (rc = 0 → workerClassify parse cmd out rc = Outcome.succeededEmpty)
      ∧ (rc ≠ 0 →
          workerClassify parse cmd out rc =
            Outcome.failed ("Process finished with error code " ++ toString rc))) := by
  constructor
  · intro hj
    refine ⟨fun hb => ?_, fun i hb hp => ?_, fun i j hb hp => ?_⟩
    · simp [workerClassify, hj, hb]
    · simp [workerClassify, hj, hb, hp]
    · simp [workerClassify, hj, hb, hp]
  · intro hj
    refine ⟨fun h0 => ?_, fun hn => ?_⟩
    · simp [workerClassify, hj, h0]
    · simp [workerClassify, hj, hn]

theorem C1_outcome_classification_witness :
    workerClassify (fun _ => (none : Option Unit))
        ["yt-dlp", "--dump-json", "u"] "no json here" 7
      = Outcome.failed "Could not find video information in the output."
    ∧ workerClassify (fun _ => (none : Option Unit)) ["yt-dlp", "-f", "22"] "done" 3
      = Outcome.failed ("Process finished with error code " ++ toString (3 : Int)) :=
  ⟨((C1_outcome_classification _ _ _ _).1 (by decide)).1 (by decide),
   ((C1_outcome_classification _ _ _ _).2 (by decide)).2 (by decide)⟩

/-- C5: an argument list whose first element names an executable that
cannot be located yields a `failed` outcome whose message contains that
executable's name (as an infix of the message text). -/
theorem C5_executable_not_found {J : Type} (parse : String → Option J)
    (locate : String → Bool) (exe : String) (rest : List String)
    (out : String) (rc : Int) (h : locate exe = false) :
    ∃ msg, workerRun parse locate (exe :: rest) out rc = Outcome.failed msg
      ∧ exe.data <:+: msg.data := by
  refine ⟨notFoundMsg exe, ?_, ?_⟩
  · unfold workerRun
    simp [h]
  · refine ⟨"Error: Command '".data, "' not found. Is it in your PATH?".data, ?_⟩
    simp [notFoundMsg, String.data_append]

theorem C5_executable_not_found_witness :
    ∃ msg,
      workerRun (fun _ => (none : Option Unit)) (fun _ => false)
          ["yt-dlp", "--dump-json", "u"] "" 0
        = Outcome.failed msg ∧ ("yt-dlp" : String).data <:+: msg.data :=
  C5_executable_not_found _ _ "yt-dlp" ["--dump-json", "u"] "" 0 rfl

/-- C9: whether a JSON result is expected is decided by testing whether
`"-j"` or `"--dump-json"` occurs as an element of the argument list, so for
any such command the classification is independent of the exit status and,
with no brace in the output, fails with the JSON-scan message even on exit
status 0; and a download command built for a webpage URL equal to `"-j"`
contains `"-j"` as an element, hence is classified by the JSON rules. -/
theorem C9_json_detection_by_membership {J : Type} (parse : String → Option J)
    (cmd : List String) (out : String) (rc rc' : Int) (st : St)
    (cmdD : List String) :
    (("-j" ∈ cmd ∨ "--dump-json" ∈ cmd) →
      workerClassify parse cmd out rc = workerClassify parse cmd out rc'
      ∧ (findBrace out = none →
          workerClassify parse cmd out 0 =
            Outcome.failed "Could not find video information in the output."))
    ∧ (∀ vi, st.video_info = some vi → vi.webpage_url = "-j" →
        (download_clip st).1 = DlOutcome.started cmdD → "-j" ∈ cmdD) := by
  constructor
  · intro hmem
    have hj : isJsonDump cmd = true := by
      rcases hmem with hm | hm
      · exact Bool.or_eq_true _ _ |>.mpr (Or.inl (List.elem_iff.mpr hm))
      · exact Bool.or_eq_true _ _ |>.mpr (Or.inr (List.elem_iff.mpr hm))
    constructor
    · unfold workerClassify
      rw [if_pos hj, if_pos hj]
    · intro hb
      simp [workerClassify, hj, hb]
  · intro vi hvi hurl h
    obtain ⟨fmtSpec, rfl⟩ := download_clip_started_inv st cmdD h
    have : webpageUrlOf st = "-j" := by
      simp [webpageUrlOf, hvi, hurl]
    simp [buildCommand, this]

theorem C9_json_detection_by_membership_witness :
    workerClassify (fun _ => (none : Option Unit))
        ["yt-dlp", "-f", "22", "-j"] "output" 0
      = workerClassify (fun _ => (none : Option Unit))
          ["yt-dlp", "-f", "22", "-j"] "output" 1
    ∧ workerClassify (fun _ => (none : Option Unit))
        ["yt-dlp", "-f", "22", "-j"] "output" 0
      = Outcome.failed "Could not find video information in the output." := by
  have h :=
    (C9_json_detection_by_membership (fun _ => (none : Option Unit))
      ["yt-dlp", "-f", "22", "-j"] "output" 0 1
      { video_info := none, videoItems := [], audioItems := [],
        videoIndex := -1, audioIndex := -1, startSec := 0, endSec := 0,
        outputPath := "", filenameText := "", log := [],
        fetchEnabled := true, urlEnabled := true, downloadEnabled := false,
        videoComboEnabled := false, audioComboEnabled := false } []).1
      (Or.inl (by decide))
  exact ⟨h.1, h.2 (by decide)⟩

/-- A format entry whose `vcodec` key is absent: Python's
`f.get('vcodec') != 'none'` is then true (`None != 'none'`), so the code
admits it to the video list, while the spec's video-capable classification
(videoCodec *present* and not the sentinel) excludes it. -/
def entryNoVcodec : FormatEntry :=
  { format_id := "1", ext := "mp4", vcodec := none,
    acodec := some "mp4a.40.2", height := some 720 }

/-- C2 counterexample: for the single-entry formats sequence
`[entryNoVcodec]` the derived video list is not the list of spec-side
video-capable entries (the code admits the entry, the claim's
classification does not), so the claim as stated fails. -/
theorem C2_counterexample : ¬ claimC2At [entryNoVcodec] := by decide

/-- C2 (amended): the derived video selection list contains exactly the
entries whose videoCodec value differs from the `"none"` sentinel (an
absent videoCodec also qualifies) and whose height is present and nonzero,
sorted by descending height with missing height treated as 0; the derived
audio selection list contains exactly the entries whose audioCodec value
differs from `"none"` (absent also qualifies) and whose videoCodec equals
`"none"`. -/
theorem C2_format_lists (fs : List FormatEntry) :
    (populateEntries (sortFormats fs)).1 = (sortFormats fs).filter videoAdmit
    ∧ (populateEntries (sortFormats fs)).2 = (sortFormats fs).filter audioAdmit
    ∧ List.Sorted sortRel (populateEntries (sortFormats fs)).1
    ∧ (∀ f, f ∈ (populateEntries (sortFormats fs)).1 ↔
        f ∈ fs ∧ videoAdmit f = true)
    ∧ (∀ f, f ∈ (populateEntries (sortFormats fs)).2 ↔
        f ∈ fs ∧ audioAdmit f = true) := by
  rw [populateEntries_eq]
  refine ⟨rfl, rfl, ?_, ?_, ?_⟩
  · exact (sortFormats_sorted fs).filter _
  · intro f
    rw [List.mem_filter, mem_sortFormats]
  · intro f
    rw [List.mem_filter, mem_sortFormats]

/-- C10: no single format entry is added to both derived lists, because
video admission requires a videoCodec value different from `"none"` while
audio admission requires it equal to `"none"`. -/
theorem C10_lists_disjoint (fs : List FormatEntry) (f : FormatEntry)
    (h : f ∈ (populateEntries (sortFormats fs)).1) :
    f ∉ (populateEntries (sortFormats fs)).2 := by
  rw [populateEntries_eq] at h ⊢
  intro h2
  have hv : videoAdmit f = true := (List.mem_filter.mp h).2
  have ha : audioAdmit f = true := (List.mem_filter.mp h2).2
  have hv1 : f.vcodec ≠ some "none" :=
    of_decide_eq_true (Bool.and_elim_left hv)
  have ha1 : f.vcodec = some "none" :=
    of_decide_eq_true (Bool.and_elim_right ha)
  exact hv1 ha1

theorem C10_lists_disjoint_witness :
    entryNoVcodec ∉ (populateEntries (sortFormats [entryNoVcodec])).2 :=
  C10_lists_disjoint [entryNoVcodec] entryNoVcodec (by decide)

/-- C4: when the video selection changes to a row holding an entry `d`, the
audio combo's enabled flag becomes false iff `d` is merged — computed from
`d` alone, whatever the prior state — and the stored audio selection (items
and current index) is never modified, even when audio selection is
disabled. -/
theorem C4_audio_enable (st : St) (i : Int) (d : VideoData)
    (h : itemDataV st.videoItems i = some d) :
    (on_video_quality_changed st i).audioComboEnabled = !d.merged
    ∧ (on_video_quality_changed st i).audioIndex = st.audioIndex
    ∧ (on_video_quality_changed st i).audioItems = st.audioItems := by
  have hi : ¬ i < 0 := by
    intro hlt
    unfold itemDataV at h
    rw [if_pos hlt] at h
    cases h
  simp [on_video_quality_changed, if_neg hi, h]

theorem C4_audio_enable_witness :
    (on_video_quality_changed
        { video_info := none, videoItems := [⟨"22", true⟩, ⟨"137", false⟩],
          audioItems := ["140"], videoIndex := 0, audioIndex := 0,
          startSec := 0, endSec := 10, outputPath := "/home/user",
          filenameText := "", log := [], fetchEnabled := true,
          urlEnabled := true, downloadEnabled := true,
          videoComboEnabled := true, audioComboEnabled := true } 0).audioComboEnabled
      = !true :=
  (C4_audio_enable _ 0 ⟨"22", true⟩ (by decide)).1

/-- C3: with video format `v` selected, a started download passes the
format specification `v.id` alone when `v` is merged, and
`v.id ++ "+" ++ a` when `v` is not merged and audio data `a` is selected;
a non-merged `v` with no (truthy) audio selection is rejected with the
audio selection error, the state unchanged and no process started. -/
theorem C3_format_spec (st : St) (v : VideoData)
    (hv : currentVideoData st = some v) :
    (v.merged = true →
      ∀ cmd, (download_clip st).1 = DlOutcome.started cmd →
        cmd.get? 1 = some "-f" ∧ cmd.get? 2 = some v.id)
    ∧ (v.merged = false →
      ((currentAudioData st = none ∨ currentAudioData st = some "") →
        download_clip st = (DlOutcome.selErrAudio, st))
      ∧ (∀ a, currentAudioData st = some a → a ≠ "" →
          ∀ cmd, (download_clip st).1 = DlOutcome.started cmd →
            cmd.get? 1 = some "-f" ∧ cmd.get? 2 = some (v.id ++ "+" ++ a))) := by
  constructor
  · intro hm cmd h
    have hd : download_clip st = dlProceed st v.id := by
      unfold download_clip
      rw [hv]
      simp [hm]
    rw [hd] at h
    unfold dlProceed at h
    split at h
    · exact absurd h (by simp)
    · have hc : buildCommand st v.id = cmd := by simpa using h
      rw [← hc]
      exact ⟨rfl, rfl⟩
  · intro hm
    constructor
    · intro ha
      unfold download_clip
      rw [hv]
      rcases ha with ha | ha <;> simp [hm, ha]
    · intro a ha hne cmd h
      have hd : download_clip st = dlProceed st (v.id ++ "+" ++ a) := by
        unfold download_clip
        rw [hv]
        simp [hm, ha, hne]
      rw [hd] at h
      unfold dlProceed at h
      split at h
      · exact absurd h (by simp)
      · have hc : buildCommand st (v.id ++ "+" ++ a) = cmd := by simpa using h
        rw [← hc]
        exact ⟨rfl, rfl⟩

/-- The concrete states used to exercise the download-request theorems. -/
def stVidOnly : St :=
  { video_info := some
      { title := some "Demo", duration := some 125,
        webpage_url := "https://example.com/v", formats := [] },
    videoItems := [⟨"137", false⟩], audioItems := ["140"],
    videoIndex := 0, audioIndex := 0, startSec := 5, endSec := 10,
    outputPath := "/home/user", filenameText := "", log := [],
    fetchEnabled := true, urlEnabled := true, downloadEnabled := true,
    videoComboEnabled := true, audioComboEnabled := true }

theorem C3_format_spec_witness :
    (buildCommand stVidOnly "137+140").get? 1 = some "-f"
    ∧ (buildCommand stVidOnly "137+140").get? 2 = some ("137" ++ "+" ++ "140") :=
  ((C3_format_spec stVidOnly ⟨"137", false⟩ (by decide)).2 (by decide)).2
    "140" (by decide) (by decide) (buildCommand stVidOnly "137+140") (by decide)

/-- A state with no selectable video format and a degenerate clip range
(start = end = 0), as arises after fetching metadata with no admitted
formats and zero duration. -/
def stNoSelection : St :=
  { video_info := some
      { title := some "Demo", duration := some 0,
        webpage_url := "https://example.com/v", formats := [] },
    videoItems := [], audioItems := [], videoIndex := -1, audioIndex := -1,
    startSec := 0, endSec := 0, outputPath := "/home/user",
    filenameText := "", log := [], fetchEnabled := true, urlEnabled := true,
    downloadEnabled := true, videoComboEnabled := true,
    audioComboEnabled := true }

/-- C6 counterexample: a download request with start = end but no video
format selected is rejected with the *selection* error, not the time error,
because the selection checks run first; so "rejected with a time error" does
not hold of every request with start ≥ end. -/
theorem C6_counterexample :
    stNoSelection.endSec ≤ stNoSelection.startSec
    ∧ (download_clip stNoSelection).1 = DlOutcome.selErrVideo
    ∧ (download_clip stNoSelection).1 ≠ DlOutcome.timeErr := by decide

/-- C6 (amended): every download request with start ≥ end is rejected
before any external process is launched and leaves the state unchanged; the
rejection is the time error whenever the format-selection preconditions
hold (a video format is selected and, when it is not merged, a truthy audio
format is selected), the selection checks being performed first. -/
theorem C6_time_validation (st : St) (h : st.endSec ≤ st.startSec) :
    (∀ cmd, (download_clip st).1 ≠ DlOutcome.started cmd)
    ∧ (download_clip st).2 = st
    ∧ (∀ v, currentVideoData st = some v →
        (v.merged = true ∨ ∃ a, currentAudioData st = some a ∧ a ≠ "") →
        (download_clip st).1 = DlOutcome.timeErr) := by
  have hp : ∀ fmtSpec, dlProceed st fmtSpec = (DlOutcome.timeErr, st) := by
    intro fmtSpec
    unfold dlProceed
    rw [if_pos h]
  refine ⟨?_, ?_, ?_⟩
  · intro cmd hc
    obtain ⟨fmtSpec, _⟩ := download_clip_started_inv st cmd hc
    unfold download_clip at hc
    split at hc
    · exact absurd hc (by simp)
    next v hv =>
      split at hc
      · rw [hp] at hc
        exact absurd hc (by simp)
      · split at hc
        · exact absurd hc (by simp)
        next a ha =>
          split at hc
          · exact absurd hc (by simp)
          · rw [hp] at hc
            exact absurd hc (by simp)
  · unfold download_clip
    split
    · rfl
    next v hv =>
      split
      · rw [hp]
      · split
        · rfl
        next a ha =>
          split
          · rfl
          · rw [hp]
  · intro v hv hsel
    unfold download_clip
    rw [hv]
    rcases hsel with hm | ⟨a, ha, hne⟩
    · simp [hm, hp]
    · cases hm : v.merged
      · simp [hm, ha, hne, hp]
      · simp [hm, hp]

/-- A state whose (merged) video selection is valid but whose clip range is
degenerate: start = end = 5 seconds. -/
def stMergedLate : St :=
  { video_info := some
      { title := some "Demo", duration := some 125,
        webpage_url := "https://example.com/v", formats := [] },
    videoItems := [⟨"22", true⟩], audioItems := [], videoIndex := 0,
    audioIndex := -1, startSec := 5, endSec := 5, outputPath := "/home/user",
    filenameText := "", log := [], fetchEnabled := true, urlEnabled := true,
    downloadEnabled := true, videoComboEnabled := true,
    audioComboEnabled := false }

theorem C6_time_validation_witness :
    (download_clip stMergedLate).1 = DlOutcome.timeErr
    ∧ (download_clip stMergedLate).2 = stMergedLate :=
  ⟨(C6_time_validation stMergedLate (by decide)).2.2 ⟨"22", true⟩ (by decide)
      (Or.inl rfl),
   (C6_time_validation stMergedLate (by decide)).2.1⟩

/-- A state whose output directory carries a trailing separator, as happens
when the chosen download folder is rendered with one (e.g. the filesystem
root). -/
def stC7 : St :=
  { video_info := some
      { title := some "Demo", duration := some 125,
        webpage_url := "https://example.com/v", formats := [] },
    videoItems := [⟨"22", true⟩], audioItems := [], videoIndex := 0,
    audioIndex := -1, startSec := 0, endSec := 5, outputPath := "/home/user/",
    filenameText := "clip", log := [], fetchEnabled := true,
    urlEnabled := true, downloadEnabled := true, videoComboEnabled := true,
    audioComboEnabled := false }

/-- C7 counterexample: with output directory `"/home/user/"` and filename
`"clip"` the started command's `-o` argument is `"/home/user/clip.%(ext)s"`
(`os.path.join` inserts no duplicate separator), which differs from the
claim's `"<outputDir>/<basename>.%(ext)s"`, i.e.
`"/home/user//clip.%(ext)s"`. -/
theorem C7_counterexample :
    (download_clip stC7).1 = DlOutcome.started (buildCommand stC7 "22")
    ∧ (buildCommand stC7 "22").get? 9 = some "/home/user/clip.%(ext)s"
    ∧ stC7.outputPath ++ "/" ++ (pyStrip stC7.filenameText ++ ".%(ext)s")
        = "/home/user//clip.%(ext)s"
    ∧ ("/home/user/clip.%(ext)s" : String) ≠ "/home/user//clip.%(ext)s" := by
  decide

/-- C7 (amended): the `-o` argument of every started download is the POSIX
path-join of the output directory with `<basename>.%(ext)s`, where basename
is the user-supplied filename after trimming when non-empty and otherwise
the fetched title with the characters `\ / * ? : " < > |` removed
(`dlBasename`); the join equals `<outputDir>/<basename>.%(ext)s` whenever
the output directory is nonempty and does not end with a separator and the
basename does not begin with one. -/
theorem C7_output_template (st : St) (cmd : List String)
    (h : (download_clip st).1 = DlOutcome.started cmd) :
    cmd.get? 9 = some (joinPath st.outputPath (dlBasename st ++ ".%(ext)s"))
    ∧ (st.outputPath ≠ "" → endsWithSlash st.outputPath = false →
        startsWithSlash (dlBasename st ++ ".%(ext)s") = false →
        cmd.get? 9 = some (st.outputPath ++ "/" ++ (dlBasename st ++ ".%(ext)s"))) := by
  obtain ⟨fmtSpec, rfl⟩ := download_clip_started_inv st cmd h
  constructor
  · rfl
  · intro he hs hb
    show some (outputTemplate st) = _
    unfold outputTemplate joinPath
    rw [if_neg (by simp [hb]), if_neg (by simp [he, hs])]

theorem C7_output_template_witness :
    (buildCommand stVidOnly "137+140").get? 9
      = some (stVidOnly.outputPath ++ "/" ++ (dlBasename stVidOnly ++ ".%(ext)s")) :=
  (C7_output_template stVidOnly (buildCommand stVidOnly "137+140") (by decide)).2
    (by decide) (by decide) (by decide)

/-- C8: the failure and completion handlers leave the stored metadata and
format selections unchanged. A fetch failure, an empty fetch result, a
download failure and a successful download each preserve `video_info`, both
combo boxes' contents and both current selections (only the log and the
enabled flags change), so the user can retry or adjust. -/
theorem C8_handlers_preserve_state (st : St) (msg : String) :
    ((on_fetch_error st msg).video_info = st.video_info
      ∧ (on_fetch_error st msg).videoItems = st.videoItems
      ∧ (on_fetch_error st msg).audioItems = st.audioItems
      ∧ (on_fetch_error st msg).videoIndex = st.videoIndex
      ∧ (on_fetch_error st msg).audioIndex = st.audioIndex)
    ∧ (on_fetch_finished st none
        = on_fetch_error st "Received empty video information."
      ∧ (on_fetch_finished st none).video_info = st.video_info)
    ∧ ((on_download_error st msg).video_info = st.video_info
      ∧ (on_download_error st msg).videoItems = st.videoItems
      ∧ (on_download_error st msg).audioItems = st.audioItems
      ∧ (on_download_error st msg).videoIndex = st.videoIndex
      ∧ (on_download_error st msg).audioIndex = st.audioIndex)
    ∧ ((on_download_finished st).video_info = st.video_info
      ∧ (on_download_finished st).videoItems = st.videoItems
      ∧ (on_download_finished st).audioItems = st.audioItems
      ∧ (on_download_finished st).videoIndex = st.videoIndex
      ∧ (on_download_finished st).audioIndex = st.audioIndex) :=
  ⟨⟨rfl, rfl, rfl, rfl, rfl⟩, ⟨rfl, rfl⟩,
   ⟨rfl, rfl, rfl, rfl, rfl⟩, ⟨rfl, rfl, rfl, rfl, rfl⟩⟩

end VideoClipper
